import Mathlib

/-! Verification development for `home_assistant.py`, an Open WebUI tool module
wrapping a Home Assistant REST API.  The file shallowly embeds the data model
and the six operations of the `Tools` class.  Parsed JSON / Python values are
modelled by `PyVal`; each operation is a function of the narration sink's
behaviour (`Sink`) and of the HTTP layer's behaviour (an `Except` value: a
raised exception or a response object), and returns `Except Err`, whose
`error` constructor models an uncaught Python exception propagating to the
caller.  The entity cache and the ordered trace of successfully emitted
narration events are threaded explicitly. -/

namespace HomeAssistant

/-- Model of a parsed-JSON / Python value as handled by the module. -/
inductive PyVal where
  | null
  | bool (b : Bool)
  | int (n : Int)
  | str (s : String)
  | list (xs : List PyVal)
  | dict (kvs : List (String × PyVal))

/-- Python `d.get(k)` on a string-keyed dict, modelled as an assoc list
(first match wins; a genuine Python dict has pairwise distinct keys). -/
def pyGet (kvs : List (String × PyVal)) (k : String) : Option PyVal :=
  (kvs.find? (fun p => p.1 == k)).map (fun p => p.2)

/-- Python dict update `d[k] = v`: overwrite in place when the key exists,
otherwise append the new key at the end (insertion order semantics). -/
def dictSet (kvs : List (String × PyVal)) (k : String) (v : PyVal) :
    List (String × PyVal) :=
  match kvs with
  | [] => [(k, v)]
  | (k0, v0) :: rest =>
    if k0 = k then (k, v) :: rest else (k0, v0) :: dictSet rest k v

/-- The dict literal built by `setEntityAttribute` (source line 531): start
from the mandatory `entity_id` pair, then splat the caller's `data` mapping
over it with dict-update semantics, so a caller-supplied `entity_id` wins. -/
def mergedPayload (entity_id : String) (data : List (String × PyVal)) :
    List (String × PyVal) :=
  data.foldl (fun acc p => dictSet acc p.1 p.2) [("entity_id", .str entity_id)]

/-- Python `s.split(".")[0]`: the characters of `s` before its first dot
(the whole of `s` when it has no dot). -/
def domainOf (s : String) : String :=
  ⟨s.data.takeWhile (fun c => c ≠ '.')⟩

/-- Python `s.startswith(p)`. -/
def pyStartsWith (s p : String) : Bool :=
  p.data.isPrefixOf s.data

mutual

/-- JSON-style rendering of a value, used for the narration strings built
from `json.dumps(...)` in the source.  String escaping of special characters
is elided: the module never inspects these strings. -/
def pyDumpVal : PyVal → String
  | .null => "null"
  | .bool true => "true"
  | .bool false => "false"
  | .int n => toString n
  | .str s => "\"" ++ s ++ "\""
  | .list xs => "[" ++ pyDumpItems xs ++ "]"
  | .dict kvs => "\x7b" ++ pyDumpPairs kvs ++ "\x7d"

/-- Comma-separated rendering of a JSON array body. -/
def pyDumpItems : List PyVal → String
  | [] => ""
  | [x] => pyDumpVal x
  | x :: y :: xs => pyDumpVal x ++ ", " ++ pyDumpItems (y :: xs)

/-- Comma-separated rendering of a JSON object body. -/
def pyDumpPairs : List (String × PyVal) → String
  | [] => ""
  | [(k, v)] => "\"" ++ k ++ "\": " ++ pyDumpVal v
  | (k, v) :: p :: ps => "\"" ++ k ++ "\": " ++ pyDumpVal v ++ ", " ++ pyDumpPairs (p :: ps)

end

/-- Python `json.dumps` on a string-keyed dict (escaping elided, see
`pyDumpVal`). -/
def pyDump (kvs : List (String × PyVal)) : String :=
  pyDumpVal (.dict kvs)

/-- Python `str()` as used in the module's f-strings.  Containers are
rendered in JSON style; the module never relies on their exact text. -/
def pyStr : PyVal → String
  | .null => "None"
  | .bool true => "True"
  | .bool false => "False"
  | .int n => toString n
  | .str s => s
  | .list xs => pyDumpVal (.list xs)
  | .dict kvs => pyDumpVal (.dict kvs)

/-- The two user-supplied settings of `Tools.Valves`. -/
structure Valves where
  ha_url : String
  ha_api_key : String
deriving DecidableEq

/-- One element of the JSON array returned by `GET /api/states`: an object
with an `entity_id` string and an `attributes` object. -/
structure StateObj where
  entity_id : String
  attributes : List (String × PyVal)

/-- The entity record built by the two discovery operations. -/
structure Entity where
  entity_id : String
  friendly_name : PyVal
  domain : String

/-- Projection of a hub state object into an `Entity` (source lines 79 to 85
and 183 to 189): `friendly_name` defaults to the string `"unknown"`, and the
`domain` field is the prefix of `entity_id` before its first dot. -/
def projectEntity (s : StateObj) : Entity :=
  { entity_id := s.entity_id
    friendly_name := (pyGet s.attributes "friendly_name").getD (.str "unknown")
    domain := domainOf s.entity_id }

/-- The list comprehension of `getEntitiesByDomain` (source lines 78 to 88):
keep the states whose `entity_id` starts with the domain followed by a dot,
and project each into an `Entity`. -/
def entitiesForDomain (domain : String) (states : List StateObj) : List Entity :=
  (states.filter (fun s => pyStartsWith s.entity_id (domain ++ "."))).map projectEntity

/-- One step of the grouping loop of `getAllEntities` (source line 190):
`grouped.setdefault(domain, []).append(obj)` appends to the existing group
in place, or appends a fresh single-element group at the end. -/
def dictInsertAppend (acc : List (String × List Entity)) (k : String) (e : Entity) :
    List (String × List Entity) :=
  match acc with
  | [] => [(k, [e])]
  | (k0, v0) :: rest =>
    if k0 = k then (k0, v0 ++ [e]) :: rest else (k0, v0) :: dictInsertAppend rest k e

/-- The grouping loop of `getAllEntities` (source lines 180 to 190). -/
def groupByDomain (states : List StateObj) : List (String × List Entity) :=
  states.foldl (fun acc s => dictInsertAppend acc (domainOf s.entity_id) (projectEntity s)) []

/-- The entity cache: a Python dict from domain to entity list. -/
abbrev Cache := List (String × List Entity)

/-- Python `self.entity_cache[domain] = entities` (source line 91). -/
def cacheSet (c : Cache) (k : String) (v : List Entity) : Cache :=
  match c with
  | [] => [(k, v)]
  | (k0, v0) :: rest =>
    if k0 = k then (k, v) :: rest else (k0, v0) :: cacheSet rest k v

/-- Lookup in the entity cache (first match; keys are pairwise distinct for
every cache the module actually builds). -/
def cacheGet (c : Cache) (k : String) : Option (List Entity) :=
  (c.find? (fun p => p.1 == k)).map (fun p => p.2)

/-- A narration event handed to the caller-supplied `__event_emitter__`. -/
inductive Event where
  | status (description : String) (done : Bool)
  | message (content : String)
deriving DecidableEq

/-- Exceptions are modelled by their message text. -/
abbrev Err := String

/-- Behaviour of the caller-supplied narration sink: each call either returns
or raises. -/
abbrev Sink := Event → Except Err Unit

/-- Response object of a `requests.get` call: status code, body text, and the
behaviour of its `.json()` method (`error` when parsing raises, and also when
the parsed value does not fit the shape `J` the operation then reads from it,
which in Python would raise at the first access). -/
structure GetResp (J : Type) where
  status_code : Nat
  text : String
  json : Except Err J

/-- Response object of a `requests.post` call; the module never parses these
bodies, so only the status code and text are read. -/
structure PostResp where
  status_code : Nat
  text : String
deriving DecidableEq

/-- A record of the `/api/services` array: an object with a `domain` string
and a `services` collection (modelled by its service names). -/
structure ServiceRec where
  domain : String
  services : List String
deriving DecidableEq

/-- A single quote character, used by a few narration strings. -/
def sq : String := String.singleton (Char.ofNat 39)

/-- Status event of source line 48. -/
def evQueryDomain (domain : String) : Event :=
  .status ("Querying entities in domain " ++ sq ++ domain ++ sq) false

/-- Status event of source lines 66, 167, 346 and 445 (same f-string). -/
def evHttpError (code : Nat) : Event :=
  .status (s!"Error: {code}") true

/-- Error element returned by `getEntitiesByDomain` on a non-200 response
(source line 75). -/
def errListMsg (code : Nat) (text : String) : String :=
  s!"Error {code}: {text}"

/-- Handler status of `getEntitiesByDomain` and `getAllEntities`
(source lines 130 and 220). -/
def evException (e : Err) : Event :=
  .status (s!"Exception occurred: {e}") true

/-- Handler status of the four other operations
(source lines 305, 402, 482 and 581). -/
def evErrorOccurred (e : Err) : Event :=
  .status (s!"Error occurred: {e}") true

/-- Table header shared by both discovery markdown builders. -/
def tableHeader : String :=
  "| Entity ID | Friendly Name |\n|-----------|----------------|\n"

/-- The row-accumulation loops of source lines 98 to 99 and 200 to 201. -/
def entityRows (es : List Entity) : String :=
  es.foldl
    (fun md e => md ++ "| `" ++ e.entity_id ++ "` | " ++ pyStr e.friendly_name ++ " |\n") ""

/-- Markdown table of `getEntitiesByDomain` (source lines 94 to 99). -/
def entityTableMarkdown (domain : String) (es : List Entity) : String :=
  "**Discovered entities in domain** `" ++ domain ++ "`:\n\n" ++ tableHeader ++ entityRows es

/-- Fixed hint message of source lines 112 to 115. -/
def hintMessage : String :=
  "🧠 If you want to know the *current state* of one of these devices, " ++
    "call `getAttributesForEntity(entity_id)` with the correct `entity_id`."

/-- Per-domain markdown table of `getAllEntities` (source lines 196 to 201). -/
def domainTableMarkdown (domain : String) (items : List Entity) : String :=
  "### Domain: `" ++ domain ++ "`\n\n" ++ tableHeader ++ entityRows items

/-- Request-detail message of `controlEntity` and `setEntityAttribute`
(source lines 269 and 544). -/
def requestDetailsMsg (endpoint payload : String) : String :=
  "**Request Details**\n- Endpoint: `" ++ endpoint ++ "`\n- Payload: ```json\n" ++
    payload ++ "\n```"

/-- Response-detail message of `controlEntity` and `setEntityAttribute`
(source lines 280 and 556). -/
def responseDetailsMsg (code : Nat) (text : String) : String :=
  "**Response Details**\n- Status: `" ++ toString code ++ "`\n- Body: ```json\n" ++
    text ++ "\n```"

/-- Informational message of source line 374. -/
def noServicesMsg (domain : String) : String :=
  s!"No services found for domain `{domain}`"

/-- Bullet list of source lines 381 to 383. -/
def servicesMarkdown (domain : String) (services : List String) : String :=
  "**Available services for domain** `" ++ domain ++ "`:\n\n" ++
    services.foldl (fun md s => md ++ "- `" ++ s ++ "`\n") ""

/-- Markdown summary of `getAttributesForEntity` (source lines 460 to 463). -/
def attrsMarkdown (entity_id : String) (state : Option PyVal)
    (attrs : List (String × PyVal)) : String :=
  "**Current state for `" ++ entity_id ++ "`**: `" ++ pyStr (state.getD .null) ++
    "`\n\n**Attributes:**\n\n" ++
    attrs.foldl (fun md kv => md ++ "- **" ++ kv.1 ++ "**: `" ++ pyStr kv.2 ++ "`\n") ""

/-- Return value of `getEntitiesByDomain`: the entity list on success, or the
single-element list of one error string the source returns on a non-200
response or an exception (in Python both share the type `list`). -/
inductive EntityListRet where
  | entities (es : List Entity)
  | errs (msgs : List String)

/-- Monad of a try-block that can update the cache before raising: an
exception carries the message together with the cache and the events already
emitted when it was raised. -/
abbrev TryC (α : Type) := Except (Err × Cache × List Event) α

/-- One `await __event_emitter__(ev)` inside such a try-block: on success the
event is appended to the trace, a raising sink raises. -/
def emitC (sink : Sink) (cache : Cache) (evs : List Event) (ev : Event) :
    TryC (List Event) :=
  match sink ev with
  | .error e => .error (e, cache, evs)
  | .ok _ => .ok (evs ++ [ev])

/-- Try-block of `getEntitiesByDomain` (source lines 47 to 127). -/
def getEntitiesByDomainTry (sink : Sink) (domain : String)
    (http : Except Err (GetResp (List StateObj))) (cache : Cache) :
    TryC (EntityListRet × Cache × List Event) :=
  match emitC sink cache [] (evQueryDomain domain) with
  | .error e => .error e
  | .ok evs =>
    match http with
    | .error e => .error (e, cache, evs)
    | .ok response =>
      if response.status_code ≠ 200 then
        match emitC sink cache evs (evHttpError response.status_code) with
        | .error e => .error e
        | .ok evs2 => .ok (.errs [errListMsg response.status_code response.text], cache, evs2)
      else
        match response.json with
        | .error e => .error (e, cache, evs)
        | .ok all_states =>
          let entities := entitiesForDomain domain all_states
          let cache2 := cacheSet cache domain entities
          match emitC sink cache2 evs (.message (entityTableMarkdown domain entities)) with
          | .error e => .error e
          | .ok evs2 =>
            match emitC sink cache2 evs2 (.message hintMessage) with
            | .error e => .error e
            | .ok evs3 =>
              match emitC sink cache2 evs3 (.status "Discovery complete" true) with
              | .error e => .error e
              | .ok evs4 => .ok (.entities entities, cache2, evs4)

/-- `getEntitiesByDomain` (source lines 30 to 136): the try-block wrapped by
the catch-all handler.  The handler itself awaits the sink outside any try,
so a raising sink there propagates (the outer `Except.error`). -/
def getEntitiesByDomain (sink : Sink) (domain : String)
    (http : Except Err (GetResp (List StateObj))) (cache : Cache) :
    Except Err (EntityListRet × Cache × List Event) :=
  match getEntitiesByDomainTry sink domain http cache with
  | .ok r => .ok r
  | .error (e, cache2, evs) =>
    match sink (evException e) with
    | .error e2 => .error e2
    | .ok _ => .ok (.errs [s!"An error occurred: {e}"], cache2, evs ++ [evException e])

/-- Status event of source line 152. -/
def evQueryAll : Event := .status "Querying all entities" false

/-- Emission loop over the per-domain tables (source lines 195 to 208). -/
def emitDomainTables (sink : Sink) (cache : Cache) :
    List (String × List Entity) → List Event → TryC (List Event)
  | [], evs => .ok evs
  | (d, items) :: rest, evs =>
    match emitC sink cache evs (.message (domainTableMarkdown d items)) with
    | .error e => .error e
    | .ok evs2 => emitDomainTables sink cache rest evs2

/-- Try-block of `getAllEntities` (source lines 151 to 217). -/
def getAllEntitiesTry (sink : Sink)
    (http : Except Err (GetResp (List StateObj))) (cache : Cache) :
    TryC (List (String × List Entity) × Cache × List Event) :=
  match emitC sink cache [] evQueryAll with
  | .error e => .error e
  | .ok evs =>
    match http with
    | .error e => .error (e, cache, evs)
    | .ok response =>
      if response.status_code ≠ 200 then
        match emitC sink cache evs (evHttpError response.status_code) with
        | .error e => .error e
        | .ok evs2 => .ok ([], cache, evs2)
      else
        match response.json with
        | .error e => .error (e, cache, evs)
        | .ok all_states =>
          let grouped := groupByDomain all_states
          match emitDomainTables sink grouped grouped evs with
          | .error e => .error e
          | .ok evs2 =>
            match emitC sink grouped evs2 (.status "Full discovery complete" true) with
            | .error e => .error e
            | .ok evs3 => .ok (grouped, grouped, evs3)

/-- `getAllEntities` (source lines 138 to 226): try-block plus catch-all
handler, which returns the empty dict. -/
def getAllEntities (sink : Sink)
    (http : Except Err (GetResp (List StateObj))) (cache : Cache) :
    Except Err (List (String × List Entity) × Cache × List Event) :=
  match getAllEntitiesTry sink http cache with
  | .ok r => .ok r
  | .error (e, cache2, evs) =>
    match sink (evException e) with
    | .error e2 => .error e2
    | .ok _ => .ok ([], cache2, evs ++ [evException e])

/-- Monad of a try-block in an operation that never touches the cache: an
exception carries the message and the events emitted so far. -/
abbrev TryE (α : Type) := Except (Err × List Event) α

/-- One `await __event_emitter__(ev)` inside such a try-block. -/
def emitE (sink : Sink) (evs : List Event) (ev : Event) : TryE (List Event) :=
  match sink ev with
  | .error e => .error (e, evs)
  | .ok _ => .ok (evs ++ [ev])

/-- The four operations whose source never mentions `entity_cache` are
modelled cache-free and wrapped by this: the unchanged input cache is placed
into every result. -/
def withCache {α : Type} (cache : Cache) (r : Except Err (α × List Event)) :
    Except Err (α × Cache × List Event) :=
  r.map (fun p => (p.1, cache, p.2))

/-- The result record of `controlEntity` (source lines 292 to 302).
`request_payload` is `json.loads` of the dumped payload, which round-trips
back to the payload dict itself. -/
structure ControlRecord where
  success : Bool
  status_code : Nat
  entity : String
  service : String
  request_url : String
  request_payload : List (String × PyVal)
  response : String

/-- JSON text returned by `controlEntity`, modelled structurally: the full
result record, or the handler's record of keys `success` (false) and
`error`. -/
inductive ControlRet where
  | record (r : ControlRecord)
  | failure (msg : String)

/-- Status event of source line 248. -/
def evSendCommand (service entityID : String) : Event :=
  .status (s!"Sending {service} command to {entityID}") false

/-- Service endpoint URL of source lines 258 and 528. -/
def serviceEndpoint (v : Valves) (domain service : String) : String :=
  v.ha_url ++ "/api/services/" ++ domain ++ "/" ++ service

/-- Try-block of `controlEntity` (source lines 247 to 302). -/
def controlEntityTry (v : Valves) (sink : Sink) (entityID domain service : String)
    (http : Except Err PostResp) : TryE (ControlRet × List Event) :=
  match emitE sink [] (evSendCommand service entityID) with
  | .error e => .error e
  | .ok evs =>
    let endpoint := serviceEndpoint v domain service
    let payload_dict : List (String × PyVal) := [("entity_id", .str entityID)]
    let payload := pyDump payload_dict
    match emitE sink evs (.message (requestDetailsMsg endpoint payload)) with
    | .error e => .error e
    | .ok evs2 =>
      match http with
      | .error e => .error (e, evs2)
      | .ok response =>
        match emitE sink evs2 (.message (responseDetailsMsg response.status_code response.text)) with
        | .error e => .error e
        | .ok evs3 =>
          match emitE sink evs3 (.status "Command complete" true) with
          | .error e => .error e
          | .ok evs4 =>
            .ok (.record
              { success := response.status_code == 200
                status_code := response.status_code
                entity := entityID
                service := service
                request_url := endpoint
                request_payload := payload_dict
                response := response.text }, evs4)

/-- `controlEntity` (source lines 228 to 311): try-block plus catch-all
handler returning the record of keys `success` (false) and `error`. -/
def controlEntity (v : Valves) (sink : Sink) (entityID domain service : String)
    (http : Except Err PostResp) (cache : Cache) :
    Except Err (ControlRet × Cache × List Event) :=
  withCache cache
    (match controlEntityTry v sink entityID domain service http with
     | .ok r => .ok r
     | .error (e, evs) =>
       match sink (evErrorOccurred e) with
       | .error e2 => .error e2
       | .ok _ => .ok (.failure e, evs ++ [evErrorOccurred e]))

/-- Status event of source line 328. -/
def evFetchServices (domain : String) : Event :=
  .status ("Fetching available services for domain " ++ sq ++ domain ++ sq) false

/-- Try-block of `getAvailableServicesForDomain` (source lines 327 to 399).
Python's `next((s for s in all_services if s["domain"] == domain), None)` is
`List.find?`; the `if not matching` test coincides with a `none` check, since
every matching record is a non-empty dict and hence truthy. -/
def getAvailableServicesForDomainTry (sink : Sink) (domain : String)
    (http : Except Err (GetResp (List ServiceRec))) : TryE (List String × List Event) :=
  match emitE sink [] (evFetchServices domain) with
  | .error e => .error e
  | .ok evs =>
    match http with
    | .error e => .error (e, evs)
    | .ok response =>
      if response.status_code ≠ 200 then
        match emitE sink evs (evHttpError response.status_code) with
        | .error e => .error e
        | .ok evs2 => .ok ([], evs2)
      else
        match response.json with
        | .error e => .error (e, evs)
        | .ok all_services =>
          match all_services.find? (fun s => s.domain == domain) with
          | none =>
            match emitE sink evs (.message (noServicesMsg domain)) with
            | .error e => .error e
            | .ok evs2 => .ok ([], evs2)
          | some matching =>
            let services := matching.services
            match emitE sink evs (.message (servicesMarkdown domain services)) with
            | .error e => .error e
            | .ok evs2 =>
              match emitE sink evs2 (.status "Service list complete" true) with
              | .error e => .error e
              | .ok evs3 => .ok (services, evs3)

/-- `getAvailableServicesForDomain` (source lines 313 to 408): try-block plus
catch-all handler returning the empty list. -/
def getAvailableServicesForDomain (sink : Sink) (domain : String)
    (http : Except Err (GetResp (List ServiceRec))) (cache : Cache) :
    Except Err (List String × Cache × List Event) :=
  withCache cache
    (match getAvailableServicesForDomainTry sink domain http with
     | .ok r => .ok r
     | .error (e, evs) =>
       match sink (evErrorOccurred e) with
       | .error e2 => .error e2
       | .ok _ => .ok ([], evs ++ [evErrorOccurred e]))

/-- Status event of source line 427. -/
def evQueryState (entity_id : String) : Event :=
  .status (s!"Querying current state of `{entity_id}`") false

/-- Whether a value is a Python dict (the only shape whose `.items()` call
in the markdown loop of source line 462 does not raise). -/
def isDict : PyVal → Bool
  | .dict _ => true
  | _ => false

/-- Try-block of `getAttributesForEntity` (source lines 426 to 479).  The
return value is the Python dict the operation builds, as an assoc list, so
that its top-level keys are observable.  When the `attributes` value of the
body is present but not a dict, the `.items()` call raises (modelled by the
`error` case). -/
def getAttributesForEntityTry (sink : Sink) (entity_id : String)
    (http : Except Err (GetResp (List (String × PyVal)))) :
    TryE (List (String × PyVal) × List Event) :=
  match emitE sink [] (evQueryState entity_id) with
  | .error e => .error e
  | .ok evs =>
    match http with
    | .error e => .error (e, evs)
    | .ok response =>
      if response.status_code ≠ 200 then
        match emitE sink evs (evHttpError response.status_code) with
        | .error e => .error e
        | .ok evs2 => .ok ([], evs2)
      else
        match response.json with
        | .error e => .error (e, evs)
        | .ok data =>
          let state := pyGet data "state"
          match (pyGet data "attributes").getD (.dict []) with
          | .dict attrs =>
            match emitE sink evs (.message (attrsMarkdown entity_id state attrs)) with
            | .error e => .error e
            | .ok evs2 =>
              match emitE sink evs2 (.status "Attribute query complete" true) with
              | .error e => .error e
              | .ok evs3 =>
                .ok ([("state", state.getD .null), ("attributes", .dict attrs)], evs3)
          | _ => .error ("attributes value has no items method", evs)

/-- `getAttributesForEntity` (source lines 410 to 488): try-block plus
catch-all handler returning the dict of single key `error`. -/
def getAttributesForEntity (sink : Sink) (entity_id : String)
    (http : Except Err (GetResp (List (String × PyVal)))) (cache : Cache) :
    Except Err (List (String × PyVal) × Cache × List Event) :=
  withCache cache
    (match getAttributesForEntityTry sink entity_id http with
     | .ok r => .ok r
     | .error (e, evs) =>
       match sink (evErrorOccurred e) with
       | .error e2 => .error e2
       | .ok _ => .ok ([("error", .str e)], evs ++ [evErrorOccurred e]))

/-- The result record of `setEntityAttribute` (source lines 568 to 578). -/
structure SetAttrRecord where
  success : Bool
  status_code : Nat
  entity : String
  domain : String
  service : String
  payload : List (String × PyVal)
  response : String

/-- JSON text returned by `setEntityAttribute`, modelled structurally. -/
inductive SetAttrRet where
  | record (r : SetAttrRecord)
  | failure (msg : String)

/-- Status event of source line 518. -/
def evSendData (service entity_id : String) : Event :=
  .status (s!"Sending `{service}` with data to `{entity_id}`") false

/-- Try-block of `setEntityAttribute` (source lines 517 to 578). -/
def setEntityAttributeTry (v : Valves) (sink : Sink) (entity_id domain service : String)
    (data : List (String × PyVal)) (http : Except Err PostResp) :
    TryE (SetAttrRet × List Event) :=
  match emitE sink [] (evSendData service entity_id) with
  | .error e => .error e
  | .ok evs =>
    let endpoint := serviceEndpoint v domain service
    let payload_dict := mergedPayload entity_id data
    let payload := pyDump payload_dict
    match emitE sink evs (.message (requestDetailsMsg endpoint payload)) with
    | .error e => .error e
    | .ok evs2 =>
      match http with
      | .error e => .error (e, evs2)
      | .ok response =>
        match emitE sink evs2 (.message (responseDetailsMsg response.status_code response.text)) with
        | .error e => .error e
        | .ok evs3 =>
          match emitE sink evs3 (.status "Attribute change complete" true) with
          | .error e => .error e
          | .ok evs4 =>
            .ok (.record
              { success := response.status_code == 200
                status_code := response.status_code
                entity := entity_id
                domain := domain
                service := service
                payload := payload_dict
                response := response.text }, evs4)

/-- `setEntityAttribute` (source lines 490 to 587): try-block plus catch-all
handler returning the record of keys `success` (false) and `error`. -/
def setEntityAttribute (v : Valves) (sink : Sink) (entity_id domain service : String)
    (data : List (String × PyVal)) (http : Except Err PostResp) (cache : Cache) :
    Except Err (SetAttrRet × Cache × List Event) :=
  withCache cache
    (match setEntityAttributeTry v sink entity_id domain service data http with
     | .ok r => .ok r
     | .error (e, evs) =>
       match sink (evErrorOccurred e) with
       | .error e2 => .error e2
       | .ok _ => .ok (.failure e, evs ++ [evErrorOccurred e]))

/-! Concrete sink behaviours used by witnesses and counterexamples. -/

/-- A narration sink that always succeeds. -/
def sinkOk : Sink := fun _ => Except.ok ()

/-- A narration sink that always raises. -/
def sinkBoom : Sink := fun _ => Except.error "sink failure"

/-! Helper lemmas about the pure kernel functions. -/

theorem takeWhile_append_cons {α : Type} (p : α → Bool) (l r : List α) (a : α)
    (h : ∀ x ∈ l, p x = true) (ha : p a = false) :
    (l ++ a :: r).takeWhile p = l := by
  induction l with
  | nil => simp [List.takeWhile_cons, ha]
  | cons x xs ih =>
    have hx := h x (by simp)
    simp only [List.cons_append, List.takeWhile_cons, hx, if_true]
    rw [ih (fun y hy => h y (by simp [hy]))]

theorem exists_append_of_isPrefixOf {α : Type} [BEq α] [LawfulBEq α] :
    ∀ (p s : List α), p.isPrefixOf s = true → ∃ t, s = p ++ t
  | [], s, _ => ⟨s, rfl⟩
  | a :: as, [], h => by simp [List.isPrefixOf] at h
  | a :: as, b :: bs, h => by
    simp only [List.isPrefixOf, Bool.and_eq_true, beq_iff_eq] at h
    obtain ⟨t, ht⟩ := exists_append_of_isPrefixOf as bs h.2
    exact ⟨t, by simp [h.1, ht]⟩

/-- When the requested domain contains no dot, an `entity_id` starting with
the domain followed by a dot has exactly that domain before its first dot. -/
theorem domainOf_of_pyStartsWith (domain s : String)
    (hdot : ∀ c ∈ domain.data, c ≠ '.')
    (h : pyStartsWith s (domain ++ ".") = true) : domainOf s = domain := by
  obtain ⟨t, ht⟩ := exists_append_of_isPrefixOf (domain ++ ".").data s.data h
  rw [String.data_append] at ht
  have hdot2 : (".".data : List Char) = ['.'] := rfl
  rw [hdot2, List.append_assoc, List.singleton_append] at ht
  obtain ⟨l⟩ := domain
  obtain ⟨m⟩ := s
  simp only [String.data] at ht hdot
  simp only [domainOf, String.data, ht]
  rw [takeWhile_append_cons]
  · intro x hx
    simp [hdot x hx]
  · simp

theorem pyGet_dictSet_same (d : List (String × PyVal)) (k : String) (v : PyVal) :
    pyGet (dictSet d k v) k = some v := by
  induction d with
  | nil => simp [dictSet, pyGet]
  | cons p rest ih =>
    obtain ⟨k0, v0⟩ := p
    by_cases h : k0 = k
    · simp [dictSet, h, pyGet]
    · simp only [dictSet, if_neg h, pyGet, List.find?]
      have : (k0 == k) = false := by simp [h]
      simp only [this]
      exact ih

theorem pyGet_dictSet_other (d : List (String × PyVal)) (k k2 : String) (v : PyVal)
    (hne : k2 ≠ k) : pyGet (dictSet d k v) k2 = pyGet d k2 := by
  have hkk2 : (k == k2) = false := by
    simp only [beq_eq_false_iff_ne, ne_eq]
    intro hh
    exact hne hh.symm
  induction d with
  | nil => simp [dictSet, pyGet, List.find?, hkk2]
  | cons p rest ih =>
    obtain ⟨k0, v0⟩ := p
    by_cases h : k0 = k
    · subst h
      simp [dictSet, pyGet, List.find?, hkk2]
    · by_cases h0 : k0 = k2
      · subst h0
        simp [dictSet, if_neg hne, pyGet, List.find?]
      · have h2 : (k0 == k2) = false := by simp [h0]
        simp only [dictSet, if_neg h, pyGet, List.find?, h2, cond_false]
        exact ih

/-- Folding dict updates over the pairs of a duplicate-free mapping: the
result looks the pairs up first and falls back to the start dict. -/
theorem pyGet_foldl_dictSet :
    ∀ (data acc : List (String × PyVal)) (k : String),
      (data.map Prod.fst).Nodup →
      pyGet (data.foldl (fun a p => dictSet a p.1 p.2) acc) k =
        ((data.find? (fun p => p.1 == k)).map (fun p => p.2)).orElse (fun _ => pyGet acc k)
  | [], acc, k, _ => by simp [pyGet, Option.orElse]
  | (k0, v0) :: rest, acc, k, hnd => by
    simp only [List.map_cons, List.nodup_cons] at hnd
    simp only [List.foldl_cons]
    rw [pyGet_foldl_dictSet rest (dictSet acc k0 v0) k hnd.2]
    by_cases h : k0 = k
    · subst h
      have hfind : rest.find? (fun p => p.1 == k0) = none := by
        rw [List.find?_eq_none]
        intro p hp
        simp only [beq_iff_eq]
        intro hk
        exact hnd.1 (hk ▸ List.mem_map_of_mem Prod.fst hp)
      simp [hfind, List.find?, pyGet_dictSet_same, Option.orElse]
    · have hb : (k0 == k) = false := by simp [h]
      rw [pyGet_dictSet_other acc k0 k v0 (fun hh => h hh.symm)]
      simp [List.find?, hb]


theorem cacheGet_cacheSet_same (c : Cache) (k : String) (v : List Entity) :
    cacheGet (cacheSet c k v) k = some v := by
  induction c with
  | nil => simp [cacheSet, cacheGet]
  | cons p rest ih =>
    obtain ⟨k0, v0⟩ := p
    by_cases h : k0 = k
    · simp [cacheSet, h, cacheGet]
    · have hb : (k0 == k) = false := by simp [h]
      simp only [cacheSet, if_neg h, cacheGet, List.find?, hb, cond_false]
      exact ih

theorem cacheGet_cacheSet_other (c : Cache) (k k2 : String) (v : List Entity)
    (hne : k2 ≠ k) : cacheGet (cacheSet c k v) k2 = cacheGet c k2 := by
  have hkk2 : (k == k2) = false := by
    simp only [beq_eq_false_iff_ne, ne_eq]
    intro hh
    exact hne hh.symm
  induction c with
  | nil => simp [cacheSet, cacheGet, List.find?, hkk2]
  | cons p rest ih =>
    obtain ⟨k0, v0⟩ := p
    by_cases h : k0 = k
    · subst h
      simp [cacheSet, cacheGet, List.find?, hkk2]
    · by_cases h0 : k0 = k2
      · subst h0
        simp [cacheSet, if_neg hne, cacheGet, List.find?]
      · have h2 : (k0 == k2) = false := by simp [h0]
        simp only [cacheSet, if_neg h, cacheGet, List.find?, h2, cond_false]
        exact ih

/-! Lemmas about the grouping loop of `getAllEntities`. -/

theorem mem_dictInsertAppend
    (acc : List (String × List Entity)) (k : String) (e : Entity) :
    ∀ p ∈ dictInsertAppend acc k e,
      p ∈ acc ∨ (∃ v, (k, v) ∈ acc ∧ p = (k, v ++ [e])) ∨ p = (k, [e]) := by
  induction acc with
  | nil =>
    intro p hp
    simp only [dictInsertAppend, List.mem_singleton] at hp
    exact Or.inr (Or.inr hp)
  | cons q rest ih =>
    obtain ⟨k0, v0⟩ := q
    intro p hp
    by_cases h : k0 = k
    · subst h
      rw [dictInsertAppend, if_pos rfl, List.mem_cons] at hp
      rcases hp with hp | hp
      · exact Or.inr (Or.inl ⟨v0, by simp, hp⟩)
      · exact Or.inl (List.mem_cons_of_mem _ hp)
    · rw [dictInsertAppend, if_neg h, List.mem_cons] at hp
      rcases hp with hp | hp
      · exact Or.inl (by simp [hp])
      · rcases ih p hp with hin | ⟨v, hv, hpv⟩ | hpe
        · exact Or.inl (List.mem_cons_of_mem _ hin)
        · exact Or.inr (Or.inl ⟨v, List.mem_cons_of_mem _ hv, hpv⟩)
        · exact Or.inr (Or.inr hpe)

theorem flatten_map_dictInsertAppend
    (acc : List (String × List Entity)) (k : String) (e : Entity) :
    ((dictInsertAppend acc k e).map Prod.snd).flatten.Perm
      ((acc.map Prod.snd).flatten ++ [e]) := by
  induction acc with
  | nil => simp [dictInsertAppend]
  | cons q rest ih =>
    obtain ⟨k0, v0⟩ := q
    by_cases h : k0 = k
    · subst h
      rw [dictInsertAppend, if_pos rfl]
      simp only [List.map_cons, List.flatten_cons]
      rw [List.append_assoc, List.append_assoc]
      exact List.Perm.append_left v0 List.perm_append_comm
    · rw [dictInsertAppend, if_neg h]
      simp only [List.map_cons, List.flatten_cons]
      rw [List.append_assoc]
      exact List.Perm.append_left v0 ih

theorem flatten_map_groupAux :
    ∀ (states : List StateObj) (acc : List (String × List Entity)),
      ((states.foldl
          (fun a s => dictInsertAppend a (domainOf s.entity_id) (projectEntity s))
          acc).map Prod.snd).flatten.Perm
        ((acc.map Prod.snd).flatten ++ states.map projectEntity)
  | [], acc => by simp
  | s :: rest, acc => by
    simp only [List.foldl_cons, List.map_cons]
    have h1 := flatten_map_groupAux rest
      (dictInsertAppend acc (domainOf s.entity_id) (projectEntity s))
    have h2 := flatten_map_dictInsertAppend acc (domainOf s.entity_id) (projectEntity s)
    have h3 : (acc.map Prod.snd).flatten ++ projectEntity s :: rest.map projectEntity =
        ((acc.map Prod.snd).flatten ++ [projectEntity s]) ++ rest.map projectEntity := by
      simp [List.append_assoc]
    rw [h3]
    exact h1.trans (h2.append_right (rest.map projectEntity))

/-- The multiset of entities over all groups equals the projected input. -/
theorem flatten_map_groupByDomain (states : List StateObj) :
    ((groupByDomain states).map Prod.snd).flatten.Perm (states.map projectEntity) := by
  have h := flatten_map_groupAux states []
  simpa [groupByDomain] using h

theorem keySound_groupAux :
    ∀ (states : List StateObj) (acc : List (String × List Entity)),
      (∀ p ∈ acc, ∀ e ∈ p.2, e.domain = p.1) →
      ∀ p ∈ states.foldl
          (fun a s => dictInsertAppend a (domainOf s.entity_id) (projectEntity s)) acc,
        ∀ e ∈ p.2, e.domain = p.1
  | [], _, hacc => hacc
  | s :: rest, acc, hacc => by
    simp only [List.foldl_cons]
    apply keySound_groupAux rest
    intro p hp e he
    rcases mem_dictInsertAppend acc (domainOf s.entity_id) (projectEntity s) p hp with
      hin | ⟨v, hv, rfl⟩ | rfl
    · exact hacc p hin e he
    · simp only [List.mem_append, List.mem_singleton] at he
      rcases he with he | rfl
      · exact hacc _ hv e he
      · rfl
    · simp only [List.mem_singleton] at he
      subst he
      rfl

/-- Every entity sits in the group keyed by the prefix of its `entity_id`
before the first dot. -/
theorem keySound_groupByDomain (states : List StateObj) :
    ∀ p ∈ groupByDomain states, ∀ e ∈ p.2, e.domain = p.1 :=
  keySound_groupAux states [] (by simp)

theorem sublist_groupAux :
    ∀ (states : List StateObj) (acc : List (String × List Entity)) (pre : List StateObj),
      (∀ p ∈ acc, p.2.Sublist (pre.map projectEntity)) →
      ∀ p ∈ states.foldl
          (fun a s => dictInsertAppend a (domainOf s.entity_id) (projectEntity s)) acc,
        p.2.Sublist ((pre ++ states).map projectEntity)
  | [], _, pre, hacc => by simpa using hacc
  | s :: rest, acc, pre, hacc => by
    simp only [List.foldl_cons]
    have hstep : ∀ p ∈ dictInsertAppend acc (domainOf s.entity_id) (projectEntity s),
        p.2.Sublist ((pre ++ [s]).map projectEntity) := by
      intro p hp
      rcases mem_dictInsertAppend acc (domainOf s.entity_id) (projectEntity s) p hp with
        hin | ⟨v, hv, rfl⟩ | rfl
      · exact (hacc p hin).trans (by simp)
      · simpa using (hacc _ hv).append (List.Sublist.refl [projectEntity s])
      · simp only [List.map_append, List.map_cons, List.map_nil]
        exact (List.nil_sublist (pre.map projectEntity)).append
          (List.Sublist.refl [projectEntity s])
    have h := sublist_groupAux rest
      (dictInsertAppend acc (domainOf s.entity_id) (projectEntity s)) (pre ++ [s]) hstep
    intro p hp
    have h2 := h p hp
    simpa [List.append_assoc] using h2

/-- Each group's entities appear in upstream order: every group is a sublist
of the projected upstream array. -/
theorem sublist_groupByDomain (states : List StateObj) :
    ∀ p ∈ groupByDomain states, p.2.Sublist (states.map projectEntity) := by
  have h := sublist_groupAux states [] [] (by simp)
  simpa [groupByDomain] using h

/-! Computed runs of the discovery operations under a sink that never
raises. -/

/-- Event trace of a successful `getEntitiesByDomain` call. -/
def gebdTrace (domain : String) (es : List Entity) : List Event :=
  [evQueryDomain domain, Event.message (entityTableMarkdown domain es),
   Event.message hintMessage, Event.status "Discovery complete" true]

theorem getEntitiesByDomain_run_ok (sink : Sink) (domain text : String)
    (states : List StateObj) (cache : Cache)
    (hsink : ∀ ev, sink ev = Except.ok ()) :
    getEntitiesByDomain sink domain (.ok ⟨200, text, .ok states⟩) cache =
      .ok (.entities (entitiesForDomain domain states),
        cacheSet cache domain (entitiesForDomain domain states),
        gebdTrace domain (entitiesForDomain domain states)) := by
  simp [getEntitiesByDomain, getEntitiesByDomainTry, emitC, hsink, gebdTrace]

theorem emitDomainTables_run_ok (sink : Sink)
    (hsink : ∀ ev, sink ev = Except.ok ()) :
    ∀ (l : List (String × List Entity)) (c : Cache) (evs : List Event),
      emitDomainTables sink c l evs =
        .ok (evs ++ l.map (fun p => Event.message (domainTableMarkdown p.1 p.2)))
  | [], c, evs => by simp [emitDomainTables]
  | (d, items) :: rest, c, evs => by
    simp [emitDomainTables, emitC, hsink, emitDomainTables_run_ok sink hsink rest]

/-- Event trace of a successful `getAllEntities` call. -/
def gaeTrace (states : List StateObj) : List Event :=
  evQueryAll ::
    ((groupByDomain states).map (fun p => Event.message (domainTableMarkdown p.1 p.2)) ++
      [Event.status "Full discovery complete" true])

theorem getAllEntities_run_ok (sink : Sink) (text : String)
    (states : List StateObj) (cache : Cache)
    (hsink : ∀ ev, sink ev = Except.ok ()) :
    getAllEntities sink (.ok ⟨200, text, .ok states⟩) cache =
      .ok (groupByDomain states, groupByDomain states, gaeTrace states) := by
  simp [getAllEntities, getAllEntitiesTry, emitC, hsink,
    emitDomainTables_run_ok sink hsink, gaeTrace]

/-- The `entity_id`s of a per-domain discovery result are the upstream
`entity_id`s that pass the filter, in order. -/
theorem map_entity_id_entitiesForDomain (domain : String) (states : List StateObj) :
    (entitiesForDomain domain states).map Entity.entity_id =
      (states.map StateObj.entity_id).filter (fun i => pyStartsWith i (domain ++ ".")) := by
  induction states with
  | nil => rfl
  | cons s rest ih =>
    by_cases h : pyStartsWith s.entity_id (domain ++ ".")
    · simp only [entitiesForDomain, List.map_cons, List.filter_cons, h, if_true,
        List.map_cons] at ih ⊢
      exact congrArg (s.entity_id :: ·) ih
    · simp only [entitiesForDomain, List.map_cons, List.filter_cons, h, if_false,
        Bool.false_eq_true] at ih ⊢
      exact ih

/-! Claim C1. -/

/-- C1 (amended): on a successful `getEntitiesByDomain` call the returned
list is the projection of exactly the upstream states whose `entity_id`
starts with the domain followed by a dot (in upstream order), every returned
entity's `domain` field equals the prefix of its `entity_id` before the
first dot, and — when the requested domain itself contains no dot — it also
equals the requested domain.  (When the requested domain contains a dot, the
`domain` field is the prefix before the FIRST dot, not the requested
domain; see the counterexample.) -/
theorem claim1_domain_field (sink : Sink) (domain text : String)
    (states : List StateObj) (cache : Cache)
    (hsink : ∀ ev, sink ev = Except.ok ()) :
    getEntitiesByDomain sink domain (.ok ⟨200, text, .ok states⟩) cache =
      .ok (.entities (entitiesForDomain domain states),
        cacheSet cache domain (entitiesForDomain domain states),
        gebdTrace domain (entitiesForDomain domain states)) ∧
    (entitiesForDomain domain states).map Entity.entity_id =
      (states.map StateObj.entity_id).filter (fun i => pyStartsWith i (domain ++ ".")) ∧
    (∀ e ∈ entitiesForDomain domain states, e.domain = domainOf e.entity_id) ∧
    ((∀ c ∈ domain.data, c ≠ '.') →
      ∀ e ∈ entitiesForDomain domain states, e.domain = domain) := by
  refine ⟨getEntitiesByDomain_run_ok sink domain text states cache hsink,
    map_entity_id_entitiesForDomain domain states, ?_, ?_⟩
  · intro e he
    simp only [entitiesForDomain, List.mem_map, List.mem_filter] at he
    obtain ⟨s, ⟨_, _⟩, rfl⟩ := he
    rfl
  · intro hdot e he
    simp only [entitiesForDomain, List.mem_map, List.mem_filter] at he
    obtain ⟨s, ⟨_, hfil⟩, rfl⟩ := he
    exact domainOf_of_pyStartsWith domain s.entity_id hdot hfil

/-- C1 witness: the amended claim applied to the spec's own scenario
(domain `light`, states `light.a` and `switch.b`). -/
theorem claim1_domain_field_witness :
    (∀ ev, sinkOk ev = Except.ok ()) ∧
    ∀ e ∈ entitiesForDomain "light"
        [⟨"light.a", [("friendly_name", .str "A")]⟩, ⟨"switch.b", []⟩],
      e.domain = "light" :=
  ⟨fun _ => rfl,
    (claim1_domain_field sinkOk "light" ""
        [⟨"light.a", [("friendly_name", .str "A")]⟩, ⟨"switch.b", []⟩] []
        (fun _ => rfl)).2.2.2 (by decide)⟩

/-- C1 counterexample: with the dotted domain `a.b` and upstream state
`a.b.c`, the call succeeds and keeps the state, but the returned entity's
`domain` field is `a`, not the requested `a.b`. -/
theorem claim1_counterexample :
    (getEntitiesByDomain sinkOk "a.b" (.ok ⟨200, "", .ok [⟨"a.b.c", []⟩]⟩) []).map
        (fun out => out.1) =
      .ok (.entities [⟨"a.b.c", .str "unknown", "a"⟩]) ∧
    ¬ (∀ e ∈ entitiesForDomain "a.b" [⟨"a.b.c", []⟩], e.domain = "a.b") := by
  constructor
  · rfl
  · decide

/-! Claim C2. -/

/-- C2: a successful `getAllEntities` call returns the grouping of the full
upstream entity set keyed by prefix-before-first-dot: every entity of every
group carries the domain it is keyed under (which is the prefix of its
`entity_id` before the first dot), and the concatenation of all group values
is a permutation of the projected input — no entity lost, none
duplicated. -/
theorem claim2_partition (sink : Sink) (text : String) (states : List StateObj)
    (cache : Cache) (hsink : ∀ ev, sink ev = Except.ok ()) :
    getAllEntities sink (.ok ⟨200, text, .ok states⟩) cache =
      .ok (groupByDomain states, groupByDomain states, gaeTrace states) ∧
    (∀ p ∈ groupByDomain states, ∀ e ∈ p.2,
      e.domain = p.1 ∧ p.1 = domainOf e.entity_id) ∧
    ((groupByDomain states).map Prod.snd).flatten.Perm (states.map projectEntity) := by
  refine ⟨getAllEntities_run_ok sink text states cache hsink, ?_,
    flatten_map_groupByDomain states⟩
  intro p hp e he
  have h1 := keySound_groupByDomain states p hp e he
  refine ⟨h1, ?_⟩
  have hmem := (sublist_groupByDomain states p hp).subset he
  obtain ⟨s, _, rfl⟩ := List.mem_map.mp hmem
  exact h1.symm

/-- C2 witness: the partition property applied to a three-entity hub. -/
theorem claim2_partition_witness :
    (∀ ev, sinkOk ev = Except.ok ()) ∧
    ((groupByDomain
        [⟨"light.a", []⟩, ⟨"switch.b", []⟩, ⟨"light.c", []⟩]).map Prod.snd).flatten.Perm
      ([⟨"light.a", []⟩, ⟨"switch.b", []⟩, ⟨"light.c", []⟩].map projectEntity) :=
  ⟨fun _ => rfl,
    (claim2_partition sinkOk ""
        [⟨"light.a", []⟩, ⟨"switch.b", []⟩, ⟨"light.c", []⟩] [] (fun _ => rfl)).2.2⟩

/-! Claim C9. -/

/-- C9: discovery preserves upstream order — the `entity_id`s returned by a
successful `getEntitiesByDomain` form a sublist (order-preserving selection)
of the upstream `entity_id`s, and so do the `entity_id`s of each group a
successful `getAllEntities` call returns. -/
theorem claim9_order (sink : Sink) (domain text : String) (states : List StateObj)
    (cache : Cache) (hsink : ∀ ev, sink ev = Except.ok ()) :
    (∀ es c2 evs,
      getEntitiesByDomain sink domain (.ok ⟨200, text, .ok states⟩) cache =
        .ok (.entities es, c2, evs) →
      (es.map Entity.entity_id).Sublist (states.map StateObj.entity_id)) ∧
    (∀ g c2 evs,
      getAllEntities sink (.ok ⟨200, text, .ok states⟩) cache = .ok (g, c2, evs) →
      ∀ p ∈ g, (p.2.map Entity.entity_id).Sublist (states.map StateObj.entity_id)) := by
  constructor
  · intro es c2 evs h
    rw [getEntitiesByDomain_run_ok sink domain text states cache hsink] at h
    simp only [Except.ok.injEq, Prod.mk.injEq, EntityListRet.entities.injEq] at h
    rw [← h.1, map_entity_id_entitiesForDomain]
    exact List.filter_sublist _
  · intro g c2 evs h hp
    rw [getAllEntities_run_ok sink text states cache hsink] at h
    simp only [Except.ok.injEq, Prod.mk.injEq] at h
    rw [← h.1]
    intro hmem
    have hsub := sublist_groupByDomain states hp hmem
    have h2 := hsub.map Entity.entity_id
    simpa [List.map_map, Function.comp] using h2

/-- C9 witness: order preservation applied to a three-entity hub. -/
theorem claim9_order_witness :
    ((entitiesForDomain "light"
        [⟨"light.a", []⟩, ⟨"switch.b", []⟩, ⟨"light.c", []⟩]).map Entity.entity_id).Sublist
      ([⟨"light.a", []⟩, ⟨"switch.b", []⟩, ⟨"light.c", []⟩].map StateObj.entity_id) :=
  (claim9_order sinkOk "light" ""
      [⟨"light.a", []⟩, ⟨"switch.b", []⟩, ⟨"light.c", []⟩] [] (fun _ => rfl)).1
    _ _ _ rfl

/-! Claim C7. -/

/-- Any result of a cache-free operation wrapped by `withCache` carries the
input cache unchanged. -/
theorem withCache_ok_cache {α : Type} (cache : Cache) (r : Except Err (α × List Event))
    (out : α × Cache × List Event) (h : withCache cache r = .ok out) : out.2.1 = cache := by
  cases r with
  | error e => simp [withCache, Except.map] at h
  | ok p =>
    simp only [withCache, Except.map, Except.ok.injEq] at h
    rw [← h]

/-- C7: the cache is written only by the two discovery operations, and each
write is a full overwrite — a successful per-domain discovery replaces
exactly the requested domain's entry and leaves every other key unchanged, a
successful full discovery replaces the whole mapping with the fresh
grouping, and the four other operations return the input cache untouched on
every path, for every sink and HTTP behaviour. -/
theorem claim7_cache_frame (sink : Sink) (hsink : ∀ ev, sink ev = Except.ok ()) :
    (∀ domain text states cache,
      getEntitiesByDomain sink domain (.ok ⟨200, text, .ok states⟩) cache =
        .ok (.entities (entitiesForDomain domain states),
          cacheSet cache domain (entitiesForDomain domain states),
          gebdTrace domain (entitiesForDomain domain states)) ∧
      cacheGet (cacheSet cache domain (entitiesForDomain domain states)) domain =
        some (entitiesForDomain domain states) ∧
      (∀ k, k ≠ domain →
        cacheGet (cacheSet cache domain (entitiesForDomain domain states)) k =
          cacheGet cache k)) ∧
    (∀ text states cache,
      getAllEntities sink (.ok ⟨200, text, .ok states⟩) cache =
        .ok (groupByDomain states, groupByDomain states, gaeTrace states)) ∧
    (∀ (sk : Sink) v entityID domain service http cache out,
      controlEntity v sk entityID domain service http cache = .ok out → out.2.1 = cache) ∧
    (∀ (sk : Sink) domain http cache out,
      getAvailableServicesForDomain sk domain http cache = .ok out → out.2.1 = cache) ∧
    (∀ (sk : Sink) entity_id http cache out,
      getAttributesForEntity sk entity_id http cache = .ok out → out.2.1 = cache) ∧
    (∀ (sk : Sink) v entity_id domain service data http cache out,
      setEntityAttribute v sk entity_id domain service data http cache = .ok out →
        out.2.1 = cache) := by
  refine ⟨?_, ?_, ?_, ?_, ?_, ?_⟩
  · intro domain text states cache
    exact ⟨getEntitiesByDomain_run_ok sink domain text states cache hsink,
      cacheGet_cacheSet_same cache domain (entitiesForDomain domain states),
      fun k hk => cacheGet_cacheSet_other cache domain k (entitiesForDomain domain states) hk⟩
  · intro text states cache
    exact getAllEntities_run_ok sink text states cache hsink
  · intro sk v entityID domain service http cache out h
    exact withCache_ok_cache cache _ out h
  · intro sk domain http cache out h
    exact withCache_ok_cache cache _ out h
  · intro sk entity_id http cache out h
    exact withCache_ok_cache cache _ out h
  · intro sk v entity_id domain service data http cache out h
    exact withCache_ok_cache cache _ out h

/-- C7 witness: a per-domain discovery leaves the `switch` entry of the
cache unchanged. -/
theorem claim7_cache_frame_witness :
    cacheGet (cacheSet [("switch", [])] "light" (entitiesForDomain "light" [⟨"light.a", []⟩]))
        "switch" =
      cacheGet [("switch", [])] "switch" :=
  ((claim7_cache_frame sinkOk (fun _ => rfl)).1 "light" "" [⟨"light.a", []⟩]
      [("switch", [])]).2.2 "switch" (by decide)

/-! Claim C6. -/

/-- C6: on a non-200 response (404 in particular) `getAttributesForEntity`
does not raise: it emits the initial status and then a done error status,
and returns the empty mapping with no error payload. -/
theorem claim6_non200_empty (sink : Sink) (entity_id text : String) (code : Nat)
    (j : Except Err (List (String × PyVal))) (cache : Cache)
    (hsink : ∀ ev, sink ev = Except.ok ()) (hcode : code ≠ 200) :
    getAttributesForEntity sink entity_id (.ok ⟨code, text, j⟩) cache =
      .ok ([], cache, [evQueryState entity_id, evHttpError code]) := by
  simp [getAttributesForEntity, getAttributesForEntityTry, emitE, withCache, Except.map,
    hsink, hcode]

/-- C6 witness: a 404 response yields the empty mapping and the done error
status. -/
theorem claim6_non200_empty_witness :
    getAttributesForEntity sinkOk "light.a" (.ok ⟨404, "not found", .ok []⟩) [] =
      .ok ([], [], [evQueryState "light.a", evHttpError 404]) :=
  claim6_non200_empty sinkOk "light.a" "not found" 404 (.ok []) [] (fun _ => rfl)
    (by decide)

/-! Shape of the try-block results of the two POST operations. -/

theorem controlEntityTry_ok_shape (v : Valves) (sink : Sink)
    (entityID domain service : String) (http : Except Err PostResp)
    (pr : ControlRet × List Event)
    (htry : controlEntityTry v sink entityID domain service http = .ok pr) :
    ∃ resp, http = .ok resp ∧
      pr.1 = .record
        { success := resp.status_code == 200
          status_code := resp.status_code
          entity := entityID
          service := service
          request_url := serviceEndpoint v domain service
          request_payload := [("entity_id", .str entityID)]
          response := resp.text } := by
  unfold controlEntityTry emitE at htry
  cases h1 : sink (evSendCommand service entityID) with
  | error e =>
    simp only [h1] at htry
    exact Except.noConfusion htry
  | ok u =>
    simp only [h1] at htry
    cases h2 : sink (Event.message (requestDetailsMsg (serviceEndpoint v domain service)
        (pyDump [("entity_id", PyVal.str entityID)]))) with
    | error e =>
      simp only [h2] at htry
      exact Except.noConfusion htry
    | ok u2 =>
      simp only [h2] at htry
      cases http with
      | error e => exact Except.noConfusion htry
      | ok resp =>
        cases h3 : sink (Event.message (responseDetailsMsg resp.status_code resp.text)) with
        | error e =>
          simp only [h3] at htry
          exact Except.noConfusion htry
        | ok u3 =>
          simp only [h3] at htry
          cases h4 : sink (Event.status "Command complete" true) with
          | error e =>
            simp only [h4] at htry
            exact Except.noConfusion htry
          | ok u4 =>
            simp only [h4, Except.ok.injEq] at htry
            exact ⟨resp, rfl, by rw [← htry]⟩

theorem setEntityAttributeTry_ok_shape (v : Valves) (sink : Sink)
    (entity_id domain service : String) (data : List (String × PyVal))
    (http : Except Err PostResp) (pr : SetAttrRet × List Event)
    (htry : setEntityAttributeTry v sink entity_id domain service data http = .ok pr) :
    ∃ resp, http = .ok resp ∧
      pr.1 = .record
        { success := resp.status_code == 200
          status_code := resp.status_code
          entity := entity_id
          domain := domain
          service := service
          payload := mergedPayload entity_id data
          response := resp.text } := by
  unfold setEntityAttributeTry emitE at htry
  cases h1 : sink (evSendData service entity_id) with
  | error e =>
    simp only [h1] at htry
    exact Except.noConfusion htry
  | ok u =>
    simp only [h1] at htry
    cases h2 : sink (Event.message (requestDetailsMsg (serviceEndpoint v domain service)
        (pyDump (mergedPayload entity_id data)))) with
    | error e =>
      simp only [h2] at htry
      exact Except.noConfusion htry
    | ok u2 =>
      simp only [h2] at htry
      cases http with
      | error e => exact Except.noConfusion htry
      | ok resp =>
        cases h3 : sink (Event.message (responseDetailsMsg resp.status_code resp.text)) with
        | error e =>
          simp only [h3] at htry
          exact Except.noConfusion htry
        | ok u3 =>
          simp only [h3] at htry
          cases h4 : sink (Event.status "Attribute change complete" true) with
          | error e =>
            simp only [h4] at htry
            exact Except.noConfusion htry
          | ok u4 =>
            simp only [h4, Except.ok.injEq] at htry
            exact ⟨resp, rfl, by rw [← htry]⟩

/-! Claim C3. -/

/-- C3: whenever `controlEntity` or `setEntityAttribute` completes without an
exception (returns the full result record rather than the handler's failure
record), the record's `success` field is true exactly when the upstream HTTP
status code equals 200 — any other status, 201 and 204 included, yields
false. -/
theorem claim3_success_iff_200 :
    (∀ (v : Valves) (sink : Sink) (entityID domain service : String)
        (http : Except Err PostResp) (cache : Cache) r c2 evs,
      controlEntity v sink entityID domain service http cache = .ok (.record r, c2, evs) →
      ∃ resp, http = .ok resp ∧ r.status_code = resp.status_code ∧
        (r.success = true ↔ resp.status_code = 200)) ∧
    (∀ (v : Valves) (sink : Sink) (entity_id domain service : String)
        (data : List (String × PyVal)) (http : Except Err PostResp) (cache : Cache)
        r c2 evs,
      setEntityAttribute v sink entity_id domain service data http cache =
        .ok (.record r, c2, evs) →
      ∃ resp, http = .ok resp ∧ r.status_code = resp.status_code ∧
        (r.success = true ↔ resp.status_code = 200)) := by
  constructor
  · intro v sink entityID domain service http cache r c2 evs h
    unfold controlEntity withCache at h
    cases htry : controlEntityTry v sink entityID domain service http with
    | error pe =>
      obtain ⟨e, evs0⟩ := pe
      rw [htry] at h
      cases hs : sink (evErrorOccurred e) with
      | error e2 =>
        simp only [hs, Except.map] at h
        exact Except.noConfusion h
      | ok u =>
        simp only [hs, Except.map, Except.ok.injEq, Prod.mk.injEq] at h
        exact ControlRet.noConfusion h.1
    | ok pr =>
      obtain ⟨resp, hhttp, hrec⟩ := controlEntityTry_ok_shape v sink entityID domain
        service http pr htry
      rw [htry] at h
      simp only [Except.map, Except.ok.injEq, Prod.mk.injEq] at h
      rw [hrec] at h
      obtain ⟨hr, -, -⟩ := h
      cases hr
      exact ⟨resp, hhttp, rfl, by simp⟩
  · intro v sink entity_id domain service data http cache r c2 evs h
    unfold setEntityAttribute withCache at h
    cases htry : setEntityAttributeTry v sink entity_id domain service data http with
    | error pe =>
      obtain ⟨e, evs0⟩ := pe
      rw [htry] at h
      cases hs : sink (evErrorOccurred e) with
      | error e2 =>
        simp only [hs, Except.map] at h
        exact Except.noConfusion h
      | ok u =>
        simp only [hs, Except.map, Except.ok.injEq, Prod.mk.injEq] at h
        exact SetAttrRet.noConfusion h.1
    | ok pr =>
      obtain ⟨resp, hhttp, hrec⟩ := setEntityAttributeTry_ok_shape v sink entity_id domain
        service data http pr htry
      rw [htry] at h
      simp only [Except.map, Except.ok.injEq, Prod.mk.injEq] at h
      rw [hrec] at h
      obtain ⟨hr, -, -⟩ := h
      cases hr
      exact ⟨resp, hhttp, rfl, by simp⟩

/-- C3 witness: a 201 response yields a record whose `success` field is
false. -/
theorem claim3_success_iff_200_witness :
    ∃ r c2 evs,
      controlEntity ⟨"http://hub", "t"⟩ sinkOk "light.a" "light" "turn_on"
          (.ok ⟨201, "created"⟩) [] = .ok (.record r, c2, evs) ∧
      (r.success = true ↔ (201 : Nat) = 200) := by
  refine ⟨_, _, _, rfl, ?_⟩
  have h := claim3_success_iff_200.1 ⟨"http://hub", "t"⟩ sinkOk "light.a" "light"
    "turn_on" (.ok ⟨201, "created"⟩) [] _ _ _ rfl
  obtain ⟨resp, hhttp, hsc, hiff⟩ := h
  cases hhttp
  exact hiff

/-! Claim C5. -/

/-- C5: the outgoing body of `setEntityAttribute` (also echoed in the result
record's `payload` field) is the caller's `data` mapping with `entity_id`
added: on every non-exception completion the record's payload is the merged
dict, whose `entity_id` entry is the caller-supplied value whenever `data`
carries a key literally named `entity_id` (last write wins, no validation)
and the mandatory argument otherwise, and whose every other key looks up
exactly as in `data`. -/
theorem claim5_payload_merge (v : Valves) (sink : Sink)
    (entity_id domain service : String) (data : List (String × PyVal))
    (http : Except Err PostResp) (cache : Cache)
    (hnd : (data.map Prod.fst).Nodup) :
    (∀ r c2 evs,
      setEntityAttribute v sink entity_id domain service data http cache =
        .ok (.record r, c2, evs) → r.payload = mergedPayload entity_id data) ∧
    pyGet (mergedPayload entity_id data) "entity_id" =
      some ((pyGet data "entity_id").getD (.str entity_id)) ∧
    (∀ k, k ≠ "entity_id" →
      pyGet (mergedPayload entity_id data) k = pyGet data k) := by
  refine ⟨?_, ?_, ?_⟩
  · intro r c2 evs h
    unfold setEntityAttribute withCache at h
    cases htry : setEntityAttributeTry v sink entity_id domain service data http with
    | error pe =>
      obtain ⟨e, evs0⟩ := pe
      rw [htry] at h
      cases hs : sink (evErrorOccurred e) with
      | error e2 =>
        simp only [hs, Except.map] at h
        exact Except.noConfusion h
      | ok u =>
        simp only [hs, Except.map, Except.ok.injEq, Prod.mk.injEq] at h
        exact SetAttrRet.noConfusion h.1
    | ok pr =>
      obtain ⟨resp, hhttp, hrec⟩ := setEntityAttributeTry_ok_shape v sink entity_id
        domain service data http pr htry
      rw [htry] at h
      simp only [Except.map, Except.ok.injEq, Prod.mk.injEq] at h
      rw [hrec] at h
      obtain ⟨hr, -, -⟩ := h
      cases hr
      rfl
  · rw [mergedPayload, pyGet_foldl_dictSet data _ "entity_id" hnd]
    cases hf : data.find? (fun p => p.1 == "entity_id") with
    | none => simp [pyGet, hf, Option.orElse, List.find?]
    | some p => simp [pyGet, hf, Option.orElse]
  · intro k hk
    have h0 : pyGet [("entity_id", PyVal.str entity_id)] k = none := by
      have hb : ("entity_id" == k) = false := by
        simp only [beq_eq_false_iff_ne, ne_eq]
        intro hh
        exact hk hh.symm
      simp [pyGet, List.find?, hb]
    rw [mergedPayload, pyGet_foldl_dictSet data _ k hnd]
    cases hf : data.find? (fun p => p.1 == k) with
    | none =>
      simp only [pyGet, hf, Option.map_none, Option.orElse] at h0 ⊢
      exact h0
    | some p => simp [pyGet, hf, Option.orElse]

/-- C5 witness: with `data` containing both an ordinary key and its own
`entity_id`, the merged payload carries the caller-supplied `entity_id`
value and the ordinary key unchanged. -/
theorem claim5_payload_merge_witness :
    pyGet (mergedPayload "light.a"
        [("brightness_pct", PyVal.int 40), ("entity_id", PyVal.str "override")])
      "entity_id" = some (PyVal.str "override") := by
  have h := (claim5_payload_merge ⟨"http://hub", "t"⟩ sinkOk "light.a" "light" "turn_on"
    [("brightness_pct", PyVal.int 40), ("entity_id", PyVal.str "override")]
    (.ok ⟨200, ""⟩) [] (by decide)).2.1
  rw [h]
  rfl

/-! Claim C8. -/

/-- C8: on a 200 `/api/services` response whose array has no record for the
requested domain, `getAvailableServicesForDomain` emits one informational
message (after the initial not-done status) and returns the empty sequence,
emitting no done/error status at all; when matching records exist, the
`services` of the first matching record are returned. -/
theorem claim8_no_match_informational (sink : Sink) (domain text : String)
    (services : List ServiceRec) (cache : Cache)
    (hsink : ∀ ev, sink ev = Except.ok ()) :
    (services.find? (fun s => s.domain == domain) = none →
      getAvailableServicesForDomain sink domain (.ok ⟨200, text, .ok services⟩) cache =
        .ok ([], cache, [evFetchServices domain, Event.message (noServicesMsg domain)]) ∧
      (∀ d, Event.status d true ∉
        ([evFetchServices domain, Event.message (noServicesMsg domain)] : List Event))) ∧
    (∀ m, services.find? (fun s => s.domain == domain) = some m →
      getAvailableServicesForDomain sink domain (.ok ⟨200, text, .ok services⟩) cache =
        .ok (m.services, cache,
          [evFetchServices domain, Event.message (servicesMarkdown domain m.services),
           Event.status "Service list complete" true])) := by
  constructor
  · intro hf
    constructor
    · simp [getAvailableServicesForDomain, getAvailableServicesForDomainTry, emitE,
        withCache, Except.map, hsink, hf]
    · intro d
      simp [evFetchServices]
  · intro m hf
    simp [getAvailableServicesForDomain, getAvailableServicesForDomainTry, emitE,
      withCache, Except.map, hsink, hf]

/-- C8 witness: the spec's scenario — a hub that never lists domain `nope`
yields the empty sequence and only the initial status plus one message. -/
theorem claim8_no_match_informational_witness :
    getAvailableServicesForDomain sinkOk "nope"
        (.ok ⟨200, "", .ok [⟨"light", ["turn_on", "turn_off"]⟩]⟩) [] =
      .ok ([], [], [evFetchServices "nope", Event.message (noServicesMsg "nope")]) :=
  ((claim8_no_match_informational sinkOk "nope" ""
      [⟨"light", ["turn_on", "turn_off"]⟩] [] (fun _ => rfl)).1 (by rfl)).1

/-! Claim C10. -/

/-- Whether a `getAttributesForEntity` call with the given HTTP behaviour
takes the exception path of the source: the request raises, or the 200-path
`.json()` call raises, or the parsed body's `attributes` value is present
but not a dict (so the `.items()` call raises). -/
def gafeExceptionPath : Except Err (GetResp (List (String × PyVal))) → Bool
  | .error _ => true
  | .ok resp =>
    if resp.status_code = 200 then
      match resp.json with
      | .error _ => true
      | .ok data => !(isDict ((pyGet data "attributes").getD (.dict [])))
    else false

theorem gafe_run_raise (sink : Sink) (entity_id : String)
    (resp : GetResp (List (String × PyVal))) (data : List (String × PyVal))
    (cache : Cache) (hsink : ∀ ev, sink ev = Except.ok ())
    (hs : resp.status_code = 200) (hj : resp.json = .ok data)
    (hv : isDict ((pyGet data "attributes").getD (.dict [])) = false) :
    getAttributesForEntity sink entity_id (.ok resp) cache =
      .ok ([("error", .str "attributes value has no items method")], cache,
        [evQueryState entity_id,
         evErrorOccurred "attributes value has no items method"]) := by
  cases h2 : (pyGet data "attributes").getD (.dict [])
  case dict kvs =>
    rw [h2] at hv
    simp [isDict] at hv
  all_goals
    simp [getAttributesForEntity, getAttributesForEntityTry, emitE, withCache,
      Except.map, hsink, hs, hj, h2]

/-- C10: a call taking the 200-success path returns a mapping whose
top-level keys are exactly `state` and `attributes` (state defaulting to
null, attributes to the empty dict) with no `error` key; and across all
outcomes of a call that completes, the returned mapping has a top-level
`error` key exactly when the exception path was taken. -/
theorem claim10_error_key_iff (sink : Sink) (entity_id : String)
    (http : Except Err (GetResp (List (String × PyVal)))) (cache : Cache)
    (hsink : ∀ ev, sink ev = Except.ok ()) :
    (∀ resp data attrs, http = .ok resp → resp.status_code = 200 →
      resp.json = .ok data →
      (pyGet data "attributes").getD (.dict []) = .dict attrs →
      getAttributesForEntity sink entity_id http cache =
        .ok ([("state", (pyGet data "state").getD .null), ("attributes", .dict attrs)],
          cache,
          [evQueryState entity_id,
           Event.message (attrsMarkdown entity_id (pyGet data "state") attrs),
           Event.status "Attribute query complete" true]) ∧
      ([("state", (pyGet data "state").getD PyVal.null),
        ("attributes", PyVal.dict attrs)].map Prod.fst) = ["state", "attributes"]) ∧
    (∀ ret c2 evs,
      getAttributesForEntity sink entity_id http cache = .ok (ret, c2, evs) →
      ((ret.map Prod.fst).contains "error" = true ↔ gafeExceptionPath http = true)) := by
  constructor
  · intro resp data attrs hhttp hs hj hv
    subst hhttp
    constructor
    · simp [getAttributesForEntity, getAttributesForEntityTry, emitE, withCache,
        Except.map, hsink, hs, hj, hv]
    · rfl
  · intro ret c2 evs h
    cases http with
    | error e =>
      have hrun : getAttributesForEntity sink entity_id (.error e) cache =
          .ok ([("error", .str e)], cache, [evQueryState entity_id, evErrorOccurred e]) := by
        simp [getAttributesForEntity, getAttributesForEntityTry, emitE, withCache,
          Except.map, hsink]
      rw [hrun] at h
      simp only [Except.ok.injEq, Prod.mk.injEq] at h
      obtain ⟨h1, -, -⟩ := h
      subst h1
      simp [gafeExceptionPath]
    | ok resp =>
      by_cases hs : resp.status_code = 200
      · cases hj : resp.json with
        | error e =>
          have hrun : getAttributesForEntity sink entity_id (.ok resp) cache =
              .ok ([("error", .str e)], cache,
                [evQueryState entity_id, evErrorOccurred e]) := by
            simp [getAttributesForEntity, getAttributesForEntityTry, emitE, withCache,
              Except.map, hsink, hs, hj]
          rw [hrun] at h
          simp only [Except.ok.injEq, Prod.mk.injEq] at h
          obtain ⟨h1, -, -⟩ := h
          subst h1
          simp [gafeExceptionPath, hs, hj]
        | ok data =>
          by_cases hd : isDict ((pyGet data "attributes").getD (.dict [])) = true
          · obtain ⟨attrs, hattrs⟩ : ∃ attrs,
                (pyGet data "attributes").getD (.dict []) = .dict attrs := by
              cases hx : (pyGet data "attributes").getD (.dict []) <;>
                rw [hx] at hd <;> simp [isDict] at hd
              exact ⟨_, rfl⟩
            have hrun : getAttributesForEntity sink entity_id (.ok resp) cache =
                .ok ([("state", (pyGet data "state").getD .null),
                    ("attributes", .dict attrs)], cache,
                  [evQueryState entity_id,
                   Event.message (attrsMarkdown entity_id (pyGet data "state") attrs),
                   Event.status "Attribute query complete" true]) := by
              simp [getAttributesForEntity, getAttributesForEntityTry, emitE, withCache,
                Except.map, hsink, hs, hj, hattrs]
            rw [hrun] at h
            simp only [Except.ok.injEq, Prod.mk.injEq] at h
            obtain ⟨h1, -, -⟩ := h
            subst h1
            simp [gafeExceptionPath, hs, hj, hattrs, isDict]
          · have hv : isDict ((pyGet data "attributes").getD (.dict [])) = false := by
              simpa using hd
            have hrun := gafe_run_raise sink entity_id resp data cache hsink hs hj hv
            rw [hrun] at h
            simp only [Except.ok.injEq, Prod.mk.injEq] at h
            obtain ⟨h1, -, -⟩ := h
            subst h1
            simp [gafeExceptionPath, hs, hj, hv]
      · have hrun : getAttributesForEntity sink entity_id (.ok resp) cache =
            .ok ([], cache, [evQueryState entity_id, evHttpError resp.status_code]) := by
          simp [getAttributesForEntity, getAttributesForEntityTry, emitE, withCache,
            Except.map, hsink, hs]
        rw [hrun] at h
        simp only [Except.ok.injEq, Prod.mk.injEq] at h
        obtain ⟨h1, -, -⟩ := h
        subst h1
        simp [gafeExceptionPath, hs]

/-- C10 witness: a 200 body with a `state` and one attribute yields exactly
the keys `state` and `attributes`, and no `error` key. -/
theorem claim10_error_key_iff_witness :
    getAttributesForEntity sinkOk "fan.x"
        (.ok ⟨200, "",
          .ok [("state", PyVal.str "on"),
               ("attributes", PyVal.dict [("speed", PyVal.int 3)])]⟩) [] =
      .ok ([("state", PyVal.str "on"),
            ("attributes", PyVal.dict [("speed", PyVal.int 3)])], [],
        [evQueryState "fan.x",
         Event.message (attrsMarkdown "fan.x" (some (PyVal.str "on"))
           [("speed", PyVal.int 3)]),
         Event.status "Attribute query complete" true]) :=
  ((claim10_error_key_iff sinkOk "fan.x"
      (.ok ⟨200, "",
        .ok [("state", PyVal.str "on"),
             ("attributes", PyVal.dict [("speed", PyVal.int 3)])]⟩) []
      (fun _ => rfl)).1
    ⟨200, "", .ok [("state", PyVal.str "on"),
      ("attributes", PyVal.dict [("speed", PyVal.int 3)])]⟩
    [("state", PyVal.str "on"), ("attributes", PyVal.dict [("speed", PyVal.int 3)])]
    [("speed", PyVal.int 3)] rfl rfl rfl rfl).1

/-! Claim C4. -/

/-- C4 (amended): as long as the caller-supplied narration sink never
raises, no operation propagates an exception for any behaviour of the HTTP
layer — every failure is caught and converted to an in-band error value or a
degraded empty result.  (When the sink itself raises, the catch-all
handler's own narration call re-raises and the exception does propagate; see
the counterexample.) -/
theorem claim4_no_propagation (sink : Sink) (hsink : ∀ ev, sink ev = Except.ok ()) :
    (∀ domain http cache, ∃ out,
      getEntitiesByDomain sink domain http cache = .ok out) ∧
    (∀ http cache, ∃ out, getAllEntities sink http cache = .ok out) ∧
    (∀ v entityID domain service http cache, ∃ out,
      controlEntity v sink entityID domain service http cache = .ok out) ∧
    (∀ domain http cache, ∃ out,
      getAvailableServicesForDomain sink domain http cache = .ok out) ∧
    (∀ entity_id http cache, ∃ out,
      getAttributesForEntity sink entity_id http cache = .ok out) ∧
    (∀ v entity_id domain service data http cache, ∃ out,
      setEntityAttribute v sink entity_id domain service data http cache = .ok out) := by
  refine ⟨?_, ?_, ?_, ?_, ?_, ?_⟩
  · intro domain http cache
    cases htry : getEntitiesByDomainTry sink domain http cache with
    | error pe =>
      obtain ⟨e, c2, evs⟩ := pe
      exact ⟨(.errs [s!"An error occurred: {e}"], c2, evs ++ [evException e]),
        by simp [getEntitiesByDomain, htry, hsink]⟩
    | ok r => exact ⟨r, by simp [getEntitiesByDomain, htry]⟩
  · intro http cache
    cases htry : getAllEntitiesTry sink http cache with
    | error pe =>
      obtain ⟨e, c2, evs⟩ := pe
      exact ⟨([], c2, evs ++ [evException e]), by simp [getAllEntities, htry, hsink]⟩
    | ok r => exact ⟨r, by simp [getAllEntities, htry]⟩
  · intro v entityID domain service http cache
    cases htry : controlEntityTry v sink entityID domain service http with
    | error pe =>
      obtain ⟨e, evs⟩ := pe
      exact ⟨(.failure e, cache, evs ++ [evErrorOccurred e]),
        by simp [controlEntity, withCache, Except.map, htry, hsink]⟩
    | ok r => exact ⟨(r.1, cache, r.2), by simp [controlEntity, withCache, Except.map, htry]⟩
  · intro domain http cache
    cases htry : getAvailableServicesForDomainTry sink domain http with
    | error pe =>
      obtain ⟨e, evs⟩ := pe
      exact ⟨([], cache, evs ++ [evErrorOccurred e]),
        by simp [getAvailableServicesForDomain, withCache, Except.map, htry, hsink]⟩
    | ok r =>
      exact ⟨(r.1, cache, r.2),
        by simp [getAvailableServicesForDomain, withCache, Except.map, htry]⟩
  · intro entity_id http cache
    cases htry : getAttributesForEntityTry sink entity_id http with
    | error pe =>
      obtain ⟨e, evs⟩ := pe
      exact ⟨([("error", .str e)], cache, evs ++ [evErrorOccurred e]),
        by simp [getAttributesForEntity, withCache, Except.map, htry, hsink]⟩
    | ok r =>
      exact ⟨(r.1, cache, r.2), by simp [getAttributesForEntity, withCache, Except.map, htry]⟩
  · intro v entity_id domain service data http cache
    cases htry : setEntityAttributeTry v sink entity_id domain service data http with
    | error pe =>
      obtain ⟨e, evs⟩ := pe
      exact ⟨(.failure e, cache, evs ++ [evErrorOccurred e]),
        by simp [setEntityAttribute, withCache, Except.map, htry, hsink]⟩
    | ok r =>
      exact ⟨(r.1, cache, r.2), by simp [setEntityAttribute, withCache, Except.map, htry]⟩

/-- C4 witness: with a never-raising sink, `getEntitiesByDomain` completes
in-band even when the HTTP layer raises. -/
theorem claim4_no_propagation_witness :
    (∀ ev, sinkOk ev = Except.ok ()) ∧
    ∃ out, getEntitiesByDomain sinkOk "light" (.error "connection refused") [] = .ok out :=
  ⟨fun _ => rfl,
    (claim4_no_propagation sinkOk (fun _ => rfl)).1 "light" (.error "connection refused") []⟩

/-- C4 counterexample: a raising narration sink makes the very first
narration call raise inside the try-block, and the catch-all handler's own
narration call then re-raises outside any try, so the exception propagates
to the caller even though the HTTP layer behaves perfectly. -/
theorem claim4_counterexample :
    getEntitiesByDomain sinkBoom "light" (.ok ⟨200, "", .ok []⟩) [] =
      .error "sink failure" := by
  rfl

end HomeAssistant
